import Mathlib

/-!
Verification of the interactive-maps-platform data-join and interaction-state
core against its specification.

The development shallowly embeds the JavaScript source:

* `jsParseFloat`, `jsStringToNumber` model the ECMAScript `parseFloat` and
  `Number()` string conversions (decimal and `Infinity` literals; numbers are
  rationals, `NaN` and the infinities are explicit constructors of `JSNum`).
* `processSheetData`, `parseRow` embed
  `SheetsDataProcessor.processSheetData` (media-maps row transformer).
* `fetchAndProcess`, `isCacheValid` embed the TTL cache of
  `SheetsDataProcessor` with the network modelled as an explicit response
  argument.
* `buildStats` / `loadDistrictStats` embed `InteractiveMap.loadDistrictStats`
  (statistics join index), with JavaScript object key semantics made explicit
  as an in-place-update association list.
* `stepEvent` embeds the interaction handlers `highlightDistrict`,
  `resetDistrictHighlight`, `zoomToDistrict` and `toggleTransportation` as a
  total transition function on an explicit interaction state.
* `buildSheetsUrl`, `addGoogleSheets`, `runStatsStep` embed the access-key
  guard of `EnvLoader.buildSheetsUrl` and the city-map factory wiring.

Presentation-only code (popup HTML generation, DOM construction, Leaflet
rendering internals) is outside the modelled core, as the specification
excludes DOM/presentation construction from scope.
-/

/-- A JavaScript number as observed by this code base: `NaN`, a signed
infinity, or a finite value, modelled as a rational (the source never relies
on binary rounding). -/
inductive JSNum where
  | nan : JSNum
  | inf (neg : Bool) : JSNum
  | fin (q : ℚ) : JSNum
deriving DecidableEq

/-- The `isNaN` test on a `JSNum`, as used by the coordinate validation. -/
def JSNum.isNaN : JSNum → Bool
  | .nan => true
  | _ => false

/-- ASCII/JS whitespace test for the characters that occur in sheet cells. -/
def jsWhite (c : Char) : Bool :=
  c = ' ' ∨ c = '\t' ∨ c = '\n' ∨ c = '\r'

/-- JavaScript `String.prototype.trim` on the character list of a string. -/
def trimChars (cs : List Char) : List Char :=
  ((cs.dropWhile jsWhite).reverse.dropWhile jsWhite).reverse

/-- JavaScript `String.prototype.trim`. -/
def jsTrim (s : String) : String :=
  ⟨trimChars s.data⟩

/-- JavaScript `String.prototype.toLowerCase` for the ASCII header names this
code handles. -/
def jsToLower (s : String) : String :=
  ⟨s.data.map Char.toLower⟩

/-- JavaScript `String.prototype.split` with a single-character separator:
`""` splits to `[""]`, a trailing separator yields a trailing empty field. -/
def splitChar (sep : Char) : List Char → List (List Char)
  | [] => [[]]
  | c :: cs =>
    if c = sep then [] :: splitChar sep cs
    else
      match splitChar sep cs with
      | [] => [[c]]
      | g :: gs => (c :: g) :: gs

/-- JavaScript `split` on strings. -/
def jsSplit (s : String) (sep : Char) : List String :=
  (splitChar sep s.data).map (fun cs => ⟨cs⟩)

/-- Longest prefix of decimal digits, together with the remainder. -/
def takeDigits : List Char → List Char × List Char
  | [] => ([], [])
  | c :: cs =>
    if c.isDigit then
      let p := takeDigits cs
      (c :: p.1, p.2)
    else ([], c :: cs)

/-- Numeric value of a digit string. -/
def digitsVal (ds : List Char) : ℕ :=
  ds.foldl (fun a c => 10 * a + (c.toNat - 48)) 0

/-- Parse an optional exponent part (`e`/`E`, optional sign, digits) from the
head of the input; an `e` not followed by digits is not consumed, matching
ECMAScript longest-valid-prefix parsing.  Returns the exponent and the
remainder. -/
def parseExpPart (cs : List Char) : ℤ × List Char :=
  match cs with
  | 'e' :: rest => parseSigned rest cs
  | 'E' :: rest => parseSigned rest cs
  | _ => (0, cs)
where
  parseSigned (rest orig : List Char) : ℤ × List Char :=
    let p :=
      match rest with
      | '+' :: r => (false, r)
      | '-' :: r => (true, r)
      | r => (false, r)
    let d := takeDigits p.2
    if d.1 = [] then (0, orig)
    else ((if p.1 then -(digitsVal d.1 : ℤ) else (digitsVal d.1 : ℤ)), d.2)

/-- The power `10 ^ n` as a rational, via natural-number power. -/
def natPow10 (n : ℕ) : ℚ :=
  ((10 ^ n : ℕ) : ℚ)

/-- The power `10 ^ e` for an integer exponent, as a rational. -/
def intPow10 (e : ℤ) : ℚ :=
  match e with
  | .ofNat n => natPow10 n
  | .negSucc n => 1 / natPow10 (n + 1)

/-- Parse an unsigned decimal literal (`digits`, `digits.digits`, `.digits`,
optional exponent) from the head of the input, ECMAScript
longest-valid-prefix style.  Returns `none` when no digit is present, else
the rational value and the remainder. -/
def parseDecBody (cs : List Char) : Option (ℚ × List Char) :=
  let ip := takeDigits cs
  match ip.2 with
  | '.' :: r2 =>
    let fp := takeDigits r2
    if ip.1 = [] ∧ fp.1 = [] then none
    else
      let e := parseExpPart fp.2
      some (((digitsVal ip.1 : ℚ) + (digitsVal fp.1 : ℚ) / natPow10 fp.1.length)
              * intPow10 e.1, e.2)
  | r1 =>
    if ip.1 = [] then none
    else
      let e := parseExpPart r1
      some ((digitsVal ip.1 : ℚ) * intPow10 e.1, e.2)

/-- Does the input start with the literal `Infinity`? -/
def startsInfinity : List Char → Bool
  | 'I' :: 'n' :: 'f' :: 'i' :: 'n' :: 'i' :: 't' :: 'y' :: _ => true
  | _ => false

/-- Strip a leading sign, returning whether the value is negated and the
remainder. -/
def stripSign : List Char → Bool × List Char
  | '+' :: r => (false, r)
  | '-' :: r => (true, r)
  | cs => (false, cs)

/-- ECMAScript `parseFloat`: skip leading whitespace, then parse the longest
prefix that is a signed decimal literal or `Infinity`; `NaN` when there is
none.  Trailing garbage is ignored. -/
def jsParseFloat (s : String) : JSNum :=
  let cs := s.data.dropWhile jsWhite
  let sg := stripSign cs
  if startsInfinity sg.2 then JSNum.inf sg.1
  else
    match parseDecBody sg.2 with
    | none => JSNum.nan
    | some p => JSNum.fin (if sg.1 then -p.1 else p.1)

/-- ECMAScript `Number()` applied to a string (`StringToNumber`): the whole
trimmed string must be a numeric literal; the empty/whitespace-only string is
`0`; otherwise `NaN`.  Hexadecimal, octal and binary literals do not occur in
this code base's data and map to `NaN` only if malformed anyway; the decimal
and `Infinity` forms are modelled. -/
def jsStringToNumber (s : String) : JSNum :=
  let cs := trimChars s.data
  if cs = [] then JSNum.fin 0
  else
    let sg := stripSign cs
    if sg.2 = [ 'I', 'n', 'f', 'i', 'n', 'i', 't', 'y' ] then JSNum.inf sg.1
    else
      match parseDecBody sg.2 with
      | some p => if p.2 = [] then JSNum.fin (if sg.1 then -p.1 else p.1) else JSNum.nan
      | none => JSNum.nan

/-- A raw sheet row: the list of string cells as delivered by the tabular
source (`values[i]` in the Google Sheets response). -/
abbrev SheetRow := List String

/-- Indexing `row[i]` in JavaScript: `none` plays the role of `undefined` for an
out-of-range or unresolved index. -/
def cellAt (row : SheetRow) (i : Option ℕ) : Option String :=
  i.bind row.get?

/-- JavaScript truthiness of a cell value: `undefined` and `""` are falsy. -/
def cellTruthy : Option String → Bool
  | none => false
  | some s => s ≠ ""

/-- Header-keyed cell lookup used by `processSheetData`: the JavaScript code
builds `rowData[header] = row[index] || ""` for every header in order, so a
later duplicate header overwrites an earlier one and a missing cell becomes
`""`; a name that is not a header at all is `undefined` (`none`). -/
def rowVal (headers row : SheetRow) (name : String) : Option String :=
  headers.enum.foldl
    (fun acc p => if p.2 = name then some ((row.get? p.1).getD ("")) else acc)
    none

/-- One parsed media location: the fields of the GeoJSON feature built by
`processSheetData` (`properties.Name`, `properties.Category`,
`geometry.coordinates`).  `properties.Name` is `undefined` when the header
row has no `Name` column, hence `Option`.  The popup HTML
(`generatePopup`) is presentation-only and outside the modelled core. -/
structure MapFeature where
  name : Option String
  category : String
  coordinates : List JSNum
deriving DecidableEq

/-- The coordinate-cell parse of `processSheetData`: split on a comma and
`parseFloat` each trimmed token. -/
def coordParts (k : String) : List JSNum :=
  (jsSplit k (',')).map (fun c => jsParseFloat (jsTrim c))

/-- The coordinate validation of `processSheetData`: exactly two tokens,
neither `NaN` (`coordParts.length !== 2 || isNaN(coordParts[0]) ||
isNaN(coordParts[1])` rejects). -/
def coordOk (parts : List JSNum) : Bool :=
  parts.length = 2 && !(parts.getD 0 JSNum.nan).isNaN && !(parts.getD 1 JSNum.nan).isNaN

/-- Per-row body of `SheetsDataProcessor.processSheetData`: `none` when the
row is skipped, otherwise the category key and the feature pushed into the
collection.  The guards mirror the source in order: the positional pre-check
`row.length < 9 || !row[0] || !row[9]`, the `!rowData["Koordinaten"]` check,
the coordinate parse, and the `Werbeträger` category check. -/
def parseRow (headers row : SheetRow) : Option (String × MapFeature) :=
  if row.length < 9 ∨ cellTruthy (row.get? 0) = false ∨ cellTruthy (row.get? 9) = false then
    none
  else
    match rowVal headers row ("Koordinaten") with
    | none => none
    | some k =>
      if k = "" then none
      else
        let parts := coordParts k
        if coordOk parts = false then none
        else
          match rowVal headers row ("Werbeträger") with
          | none => none
          | some cat =>
            if cat = "" then none
            else
              some (cat, { name := rowVal headers row ("Name")
                           category := cat
                           coordinates := parts })

/-- A category collection: category name to ordered feature list, insertion
(first-seen) order preserved, as in the JavaScript object `data`. -/
abbrev CategoryColl := List (String × List MapFeature)

/-- The push `data[category].features.push(feature)` with on-demand initialisation of
`data[category]`: in-place update of an existing key, append of a new one. -/
def addFeature : CategoryColl → String → MapFeature → CategoryColl
  | [], cat, f => [(cat, [f])]
  | e :: rest, cat, f =>
    if e.1 = cat then (e.1, e.2 ++ [f]) :: rest
    else e :: addFeature rest cat f

/-- The body of the `rows.forEach` loop of `processSheetData`: a skipped row
leaves the collection alone, a parsed row pushes its feature under its
category. -/
def procStep (headers : SheetRow) (acc : CategoryColl) (row : SheetRow) :
    CategoryColl :=
  match parseRow headers row with
  | none => acc
  | some cf => addFeature acc cf.1 cf.2

/-- Embedding of `SheetsDataProcessor.processSheetData`: headers are `values[0]`, data
rows are `values.slice(1)`; each row is parsed and its feature grouped under
its category. -/
def processSheetData (values : List SheetRow) : CategoryColl :=
  values.tail.foldl (procStep (values.headD [])) []

/-- Lookup of a category's feature list in a collection (`data[category]`,
keys unique by construction). -/
def featuresOf : CategoryColl → String → List MapFeature
  | [], _ => []
  | e :: rest, cat => if e.1 = cat then e.2 else featuresOf rest cat

/-- The mutable cache singleton of `SheetsDataProcessor` (`this.cache`):
processed data, storage timestamp (`Date.now()` milliseconds), and the TTL
`duration` (source default `5 * 60 * 1000`). -/
structure SheetsCache where
  data : Option CategoryColl
  timestamp : Option ℕ
  duration : ℕ
deriving DecidableEq

/-- The source's default cache, TTL five minutes. -/
def initialCache : SheetsCache :=
  { data := none, timestamp := none, duration := 5 * 60 * 1000 }

/-- Embedding of `SheetsDataProcessor.isCacheValid`, with the current clock explicit:
`this.cache.data && this.cache.timestamp && Date.now() - timestamp <
duration`.  A stored timestamp of `0` is falsy in JavaScript, hence the
`t ≠ 0` conjunct. -/
def isCacheValid (c : SheetsCache) (now : ℕ) : Bool :=
  c.data.isSome &&
    (match c.timestamp with
     | none => false
     | some t => t ≠ 0 && now - t < c.duration)

/-- Embedding of `SheetsDataProcessor.clearCache`. -/
def clearCache (c : SheetsCache) : SheetsCache :=
  { c with data := none, timestamp := none }

/-- The error taxonomy of the ingestion pipeline (spec section 7), matching
the three `throw` sites of `fetchAndProcess`: missing API key, transport
failure or non-success HTTP status, and a missing or shorter-than-two-rows
`values` body. -/
inductive FetchErr where
  | configError : FetchErr
  | sourceUnavailable : FetchErr
  | emptyDataset : FetchErr
deriving DecidableEq

/-- The network's answer to the single `fetch` of `fetchAndProcess`: the
transport threw, a non-OK status came back, or an OK response whose JSON body
optionally carries a `values` table. -/
inductive NetResponse where
  | transportError : NetResponse
  | httpError (status : ℕ) : NetResponse
  | success (values : Option (List SheetRow)) : NetResponse
deriving DecidableEq

/-- Embedding of `SheetsDataProcessor.fetchAndProcess`, state-passing form.  Inputs: the
cache, the current clock, whether `EnvLoader.buildSheetsUrl` produced a URL
(the API key is configured), and the network response that the single
`fetch` would observe.  Output: the result (`Except` models `throw`), the
cache after the call, and whether a network retrieval was performed. -/
def fetchAndProcess (c : SheetsCache) (now : ℕ) (keyConfigured : Bool)
    (net : NetResponse) : Except FetchErr CategoryColl × SheetsCache × Bool :=
  if isCacheValid c now then (Except.ok (c.data.getD []), c, false)
  else if keyConfigured = false then (Except.error FetchErr.configError, c, false)
  else
    match net with
    | NetResponse.transportError => (Except.error FetchErr.sourceUnavailable, c, true)
    | NetResponse.httpError _ => (Except.error FetchErr.sourceUnavailable, c, true)
    | NetResponse.success body =>
      match body with
      | none => (Except.error FetchErr.emptyDataset, c, true)
      | some values =>
        if values.length < 2 then (Except.error FetchErr.emptyDataset, c, true)
        else
          let d := processSheetData values
          (Except.ok d, { c with data := some d, timestamp := some now }, true)

/-- One entry of the statistics join index, as built by
`InteractiveMap.loadDistrictStats`: `name` is the raw cell (possibly
`undefined`), the numeric fields are `Number(cell || 0)`, `notes` defaults to
`""`. -/
structure StatEntry where
  name : Option String
  population : JSNum
  area : JSNum
  adCount : JSNum
  notes : String
deriving DecidableEq

/-- The coercion `Number(row[i] || 0)`: an `undefined` or `""` cell falls back to the
number `0` before conversion; any other cell string goes through
`Number()`. -/
def numCell (c : Option String) : JSNum :=
  match c with
  | none => JSNum.fin 0
  | some s => if s = "" then JSNum.fin 0 else jsStringToNumber s

/-- The header-to-index map of `loadDistrictStats`:
`Object.fromEntries(headers.map((h, i) => [h.trim().toLowerCase(), i]))`,
where a duplicate normalised header keeps the last index. -/
def colIndexOf (headers : SheetRow) (name : String) : Option ℕ :=
  headers.enum.foldl
    (fun acc p => if jsToLower (jsTrim p.2) = name then some p.1 else acc)
    none

/-- The `RegionStat` record built by `loadDistrictStats` for one row. -/
def mkStatEntry (headers row : SheetRow) : StatEntry :=
  { name := cellAt row (colIndexOf headers ("name"))
    population := numCell (cellAt row (colIndexOf headers ("population")))
    area := numCell (cellAt row (colIndexOf headers ("area")))
    adCount := numCell (cellAt row (colIndexOf headers ("adcount")))
    notes := (cellAt row (colIndexOf headers ("notes"))).getD ("") }

/-- The identifier of a row: `row[colIndex["cartodb_id"]]`, with the `if
(!id) continue` falsiness check (`undefined` or `""` skips the row). -/
def rowId (headers row : SheetRow) : Option String :=
  match cellAt row (colIndexOf headers ("cartodb_id")) with
  | none => none
  | some s => if s = "" then none else some s

/-- The join index `statsById`: a JavaScript object keyed by identifier,
modelled as an association list where assigning an existing key updates it in
place and a new key is appended. -/
abbrev StatsIndex := List (String × StatEntry)

/-- Assignment `statsById[id] = entry` (JavaScript object assignment). -/
def setStat : StatsIndex → String → StatEntry → StatsIndex
  | [], k, v => [(k, v)]
  | e :: rest, k, v =>
    if e.1 = k then (e.1, v) :: rest
    else e :: setStat rest k v

/-- The read `statsById[id]` (JavaScript object read; keys unique by construction). -/
def statLookup : StatsIndex → String → Option StatEntry
  | [], _ => none
  | e :: rest, k => if e.1 = k then some e.2 else statLookup rest k

/-- The body of the row loop of `loadDistrictStats`: skip a row whose
identifier is falsy, else assign its `RegionStat` under its identifier. -/
def statStep (headers : SheetRow) (acc : StatsIndex) (row : SheetRow) :
    StatsIndex :=
  match rowId headers row with
  | none => acc
  | some id => setStat acc id (mkStatEntry headers row)

/-- The row loop of `loadDistrictStats` over the data rows. -/
def buildStats (headers : SheetRow) (rows : List SheetRow) : StatsIndex :=
  rows.foldl (statStep headers) []

/-- Embedding of `InteractiveMap.loadDistrictStats` applied to a successfully fetched
`values` table: `const [headers, ...rows] = data.values`. -/
def loadDistrictStats (values : List SheetRow) : StatsIndex :=
  buildStats (values.headD []) values.tail

/-- The key list of the join index. -/
def statKeys (s : StatsIndex) : List String :=
  s.map (fun e => e.1)

/-- The Leaflet path style fields that the interaction handlers touch.
`setStyle` merges, so each handler updates only the fields it passes. -/
structure RegionStyle where
  color : String
  weight : ℚ
  opacity : ℚ
  fillOpacity : ℚ
  dashArray : String
deriving DecidableEq

/-- The style `createDistrictLayer` applies to every district initially. -/
def initialRegionStyle : RegionStyle :=
  { color := "#13538a", weight := 2, opacity := 1, fillOpacity := 0,
    dashArray := "10" }

/-- The interaction-facing state of an `InteractiveMap` instance: the
`this.state` fields (`isTransportationVisible`, `currentDistrict` — the
latter is initialised to `null` and never assigned anywhere in the source),
whether the two layers have been loaded (`this.layers.transportation`,
`this.layers.districts`, checked by the `toggleTransportation` guard),
whether the transportation layer is on the map, the per-district styles, and
the district-info panel state (`open`/`close` plus the district whose
properties were last passed to `update`). -/
structure MapState where
  isTransportationVisible : Bool
  currentDistrict : Option String
  hasTransportationLayer : Bool
  hasDistrictsLayer : Bool
  transportationOnMap : Bool
  styles : String → RegionStyle
  panelOpen : Bool
  panelDistrict : Option String

/-- The user-interaction events handled by the district layer and the
transport toggle button. -/
inductive MapEvent where
  | pointerEnter (id : String) : MapEvent
  | pointerLeave (id : String) : MapEvent
  | click (id : String) : MapEvent
  | toggleOverlay : MapEvent
deriving DecidableEq

/-- Is the event a click? -/
def MapEvent.isClick : MapEvent → Bool
  | .click _ => true
  | _ => false

/-- The total transition function of the interaction state machine, one case
per source handler:

* `pointerEnter` is `highlightDistrict`: merge `{weight: 5, color:
  "#13538a", dashArray: "", fillOpacity: 0.4}` into the hovered district's
  style, update the panel with that district and open it;
* `pointerLeave` is `resetDistrictHighlight`: merge `{opacity:
  isTransportationVisible ? 0.2 : 1, fillOpacity: 0, weight: 2, dashArray:
  "10"}` into that district's style and close the panel;
* `click` is `zoomToDistrict`: fit the viewport (outside the modelled state)
  and open the panel;
* `toggleOverlay` is `toggleTransportation`: no-op unless both layers exist,
  else remove/add the transportation layer and `setStyle` every district's
  `opacity` to `1` (hiding) or `0.2` (showing), flipping
  `isTransportationVisible`. -/
def stepEvent (s : MapState) (e : MapEvent) : MapState :=
  match e with
  | MapEvent.pointerEnter id =>
    { s with
      styles := fun r =>
        if r = id then
          { s.styles r with
            weight := 5
            color := "#13538a"
            dashArray := ""
            fillOpacity := 4 / 10 }
        else s.styles r
      panelDistrict := some id
      panelOpen := true }
  | MapEvent.pointerLeave id =>
    { s with
      styles := fun r =>
        if r = id then
          { s.styles r with
            opacity := if s.isTransportationVisible then 2 / 10 else 1
            fillOpacity := 0
            weight := 2
            dashArray := "10" }
        else s.styles r
      panelOpen := false }
  | MapEvent.click _ =>
    { s with panelOpen := true }
  | MapEvent.toggleOverlay =>
    if s.hasTransportationLayer = false ∨ s.hasDistrictsLayer = false then s
    else if s.isTransportationVisible then
      { s with
        transportationOnMap := false
        styles := fun r => { s.styles r with opacity := 1 }
        isTransportationVisible := false }
    else
      { s with
        transportationOnMap := true
        styles := fun r => { s.styles r with opacity := 2 / 10 }
        isTransportationVisible := true }

/-- A fresh `InteractiveMap` interaction state after both layers loaded: the
constructor sets `isTransportationVisible: false, currentDistrict: null`,
every district styled by `createDistrictLayer`, panel closed. -/
def startState : MapState :=
  { isTransportationVisible := false
    currentDistrict := none
    hasTransportationLayer := true
    hasDistrictsLayer := true
    transportationOnMap := false
    styles := fun _ => initialRegionStyle
    panelOpen := false
    panelDistrict := none }

/-- The lookup `EnvLoader.get("GOOGLE_SHEETS_API_KEY")`: `this.variables[key] ||
null`, so an absent or empty value becomes `null`. -/
def envGet (v : Option String) : Option String :=
  match v with
  | none => none
  | some s => if s = "" then none else some s

/-- Embedding of `EnvLoader.buildSheetsUrl`: `null` when the key is missing or still the
placeholder, else the templated Google Sheets API URL. -/
def buildSheetsUrl (apiKey : Option String) (sheetId range : String) :
    Option String :=
  match envGet apiKey with
  | none => none
  | some k =>
    if k = "your_google_sheets_api_key_here" then none
    else
      some ("https://sheets.googleapis.com/v4/spreadsheets/" ++ sheetId ++
        "/values/" ++ range ++ "?key=" ++ k)

/-- The slice of the city-map configuration that the statistics step of
`initializeWithData` reads: the `showDistrictStats` feature flag and the
`dataSources.districtStats` URL. -/
structure StatsConfig where
  showDistrictStats : Bool
  districtStats : Option String
deriving DecidableEq

/-- Embedding of `CityMapFactory.addGoogleSheets`: set `dataSources.districtStats` only
when `buildSheetsUrl` produced a URL, else leave the configuration as is. -/
def addGoogleSheets (cfg : StatsConfig) (apiKey : Option String)
    (sheetId range : String) : StatsConfig :=
  match buildSheetsUrl apiKey sheetId range with
  | some u => { cfg with districtStats := some u }
  | none => cfg

/-- The district-statistics step of `InteractiveMap.initializeWithData`:
`if (features.showDistrictStats && dataSources.districtStats) await
loadDistrictStats(url)`.  The fetch is the explicit function argument
`statsFetch`; when the step is skipped the pipeline proceeds with no
statistics (`Except.ok none`).  Boundary loading of districts and routes is
outside this step. -/
def runStatsStep (cfg : StatsConfig)
    (statsFetch : String → Except FetchErr StatsIndex) :
    Except FetchErr (Option StatsIndex) :=
  match cfg.districtStats with
  | some u =>
    if cfg.showDistrictStats then (statsFetch u).map some
    else Except.ok none
  | none => Except.ok none

deriving instance DecidableEq for Except

/-! ## Helper lemmas -/

/-- Every interaction event leaves `currentDistrict` unchanged: no source
handler ever assigns `this.state.currentDistrict`. -/
theorem stepEvent_currentDistrict (s : MapState) (e : MapEvent) :
    (stepEvent s e).currentDistrict = s.currentDistrict := by
  cases e with
  | pointerEnter id => rfl
  | pointerLeave id => rfl
  | click id => rfl
  | toggleOverlay =>
    simp only [stepEvent]
    split
    · rfl
    · split <;> rfl

/-! ## Claim theorems -/

/-- Claim C10: every data row with fewer than 10 cells, or an empty cell at
index 0, or an empty cell at index 9, is skipped by `processSheetData`'s
positional pre-check (`row.length < 9 || !row[0] || !row[9]`; a row of
exactly 9 cells has no cell at index 9, so it is skipped too).  The check
reads the fixed positions 0 and 9 regardless of the header row. -/
theorem parseRow_positional_precheck_skips (headers row : SheetRow)
    (h : row.length < 10 ∨ row.get? 0 = some ("") ∨ row.get? 9 = some ("")) :
    parseRow headers row = none := by
  unfold parseRow
  rw [if_pos]
  rcases h with h | h | h
  · by_cases h9 : row.length < 9
    · exact Or.inl h9
    · have h9' : row.get? 9 = none := List.get?_eq_none.mpr (by omega)
      exact Or.inr (Or.inr (by rw [h9']; rfl))
  · exact Or.inr (Or.inl (by rw [h]; rfl))
  · exact Or.inr (Or.inr (by rw [h]; rfl))

/-- Witness for C10 at a concrete three-cell row. -/
theorem parseRow_positional_precheck_skips_witness :
    parseRow [("Name"), ("Koordinaten"), ("Werbeträger")]
      [("SpotW"), ("52.5,13.4"), ("CityLightW")] = none :=
  parseRow_positional_precheck_skips _ _ (Or.inl (by decide))

/-- Claim C6: over every sequence of `pointerEnter`, `pointerLeave`, `click`
and `toggleOverlay` events the interaction state machine stays defined
(`stepEvent` is a total function, each handler including the guarded
`toggleTransportation` giving a next state), and the selected-district
component of the state changes only on a click event: a click-free sequence
leaves `currentDistrict` untouched. -/
theorem stepEvent_selected_changes_only_on_click (s : MapState)
    (es : List MapEvent) (h : ∀ e ∈ es, e.isClick = false) :
    (es.foldl stepEvent s).currentDistrict = s.currentDistrict := by
  induction es generalizing s with
  | nil => rfl
  | cons e es ih =>
    rw [List.foldl_cons, ih (stepEvent s e) (fun x hx => h x (List.mem_cons_of_mem _ hx)),
      stepEvent_currentDistrict]

/-- Witness for C6 on a concrete click-free event sequence. -/
theorem stepEvent_selected_changes_only_on_click_witness :
    (([MapEvent.pointerEnter ("a"), MapEvent.toggleOverlay,
        MapEvent.pointerLeave ("a")]).foldl stepEvent startState).currentDistrict
      = startState.currentDistrict :=
  stepEvent_selected_changes_only_on_click startState _ (by decide)

/-- Counterexample to claim C7: after hovering district `r0` and then
toggling the overlay on, the hovered district's outline opacity is `0.2`,
not the claimed full `1.0` — `toggleTransportation` calls
`this.layers.districts.setStyle({opacity: 0.2})`, which restyles every
district including the hovered one. -/
theorem hover_then_toggle_dims_hovered_region :
    ((stepEvent (stepEvent startState (MapEvent.pointerEnter ("r0")))
        MapEvent.toggleOverlay).styles ("r0")).opacity = 2 / 10 ∧
      ((2 : ℚ) / 10 ≠ 1) := by
  with_unfolding_all decide

/-- Claim C7 as amended: with both layers loaded, toggling the overlay on
sets every district's outline opacity to `0.2` — the hovered district
included — and toggling it off sets every district's outline opacity back to
`1.0`. -/
theorem toggleOverlay_sets_all_outline_opacities (s : MapState)
    (h1 : s.hasTransportationLayer = true) (h2 : s.hasDistrictsLayer = true) :
    ∀ r, ((stepEvent s MapEvent.toggleOverlay).styles r).opacity =
      if s.isTransportationVisible then 1 else 2 / 10 := by
  intro r
  cases hv : s.isTransportationVisible <;> simp [stepEvent, h1, h2, hv]

/-- Witness for C7's amended theorem at the start state. -/
theorem toggleOverlay_sets_all_outline_opacities_witness :
    ((stepEvent startState MapEvent.toggleOverlay).styles ("x")).opacity =
      if startState.isTransportationVisible then 1 else 2 / 10 :=
  toggleOverlay_sets_all_outline_opacities startState rfl rfl ("x")

/-- Claim C1: with a cache entry present (`data` stored, timestamp `t` from a
real clock, so `0 < t`), a call of `fetchAndProcess` strictly within the TTL
performs no network retrieval, returns the stored data, and leaves the cache
unchanged; a call at or past the TTL (in the key-configured operating state
of the first call) performs a network retrieval. -/
theorem fetchAndProcess_cache_ttl (c : SheetsCache) (d : CategoryColl)
    (t now : ℕ) (k : Bool) (net : NetResponse) (hd : c.data = some d)
    (ht : c.timestamp = some t) (ht0 : 0 < t) :
    (now - t < c.duration →
      fetchAndProcess c now k net = (Except.ok d, c, false)) ∧
    (c.duration ≤ now - t → k = true →
      (fetchAndProcess c now k net).2.2 = true) := by
  constructor
  · intro hlt
    have hv : isCacheValid c now = true := by
      simp [isCacheValid, hd, ht]
      exact ⟨by omega, hlt⟩
    unfold fetchAndProcess
    rw [if_pos hv]
    simp [hd]
  · intro hge hk
    have hv : isCacheValid c now = false := by
      simp [isCacheValid, hd, ht]
      intro _
      omega
    subst hk
    unfold fetchAndProcess
    rw [if_neg (by simp [hv])]
    cases net with
    | transportError => rfl
    | httpError st => rfl
    | success body =>
      cases body with
      | none => rfl
      | some values =>
        simp only [reduceCtorEq, if_false]
        split <;> rfl

/-- Witness for C1: an entry stored at `t = 1000` with the default 5-minute
TTL, probed at `t = 1500`. -/
theorem fetchAndProcess_cache_ttl_witness :
    ((1500 : ℕ) - 1000 < ({ data := some [], timestamp := some 1000, duration := 300000 } : SheetsCache).duration →
      fetchAndProcess { data := some [], timestamp := some 1000, duration := 300000 } 1500 true NetResponse.transportError =
        (Except.ok [], { data := some [], timestamp := some 1000, duration := 300000 }, false)) ∧
    (({ data := some [], timestamp := some 1000, duration := 300000 } : SheetsCache).duration ≤ (1500 : ℕ) - 1000 →
      true = true →
      (fetchAndProcess { data := some [], timestamp := some 1000, duration := 300000 } 1500 true NetResponse.transportError).2.2 = true) :=
  fetchAndProcess_cache_ttl _ [] 1000 1500 true NetResponse.transportError
    rfl rfl (by decide)

/-- Claim C5: when the cache is not valid and the key is configured, a
transport error, a non-success HTTP status, a missing `values` body, and a
`values` body of fewer than 2 rows each make `fetchAndProcess` throw
(`SourceUnavailable` for the first two, `EmptyDataset` for the last two),
the error propagates (`Except.error` is the result, no stale data is
returned), and the cache is exactly the pre-call cache. -/
theorem fetchAndProcess_failure_preserves_cache (c : SheetsCache) (now : ℕ)
    (net : NetResponse) (hv : isCacheValid c now = false) :
    (net = NetResponse.transportError →
      fetchAndProcess c now true net =
        (Except.error FetchErr.sourceUnavailable, c, true)) ∧
    (∀ st, net = NetResponse.httpError st →
      fetchAndProcess c now true net =
        (Except.error FetchErr.sourceUnavailable, c, true)) ∧
    (net = NetResponse.success none →
      fetchAndProcess c now true net =
        (Except.error FetchErr.emptyDataset, c, true)) ∧
    (∀ values, net = NetResponse.success (some values) → values.length < 2 →
      fetchAndProcess c now true net =
        (Except.error FetchErr.emptyDataset, c, true)) := by
  refine ⟨?_, ?_, ?_, ?_⟩
  · intro h
    subst h
    unfold fetchAndProcess
    rw [if_neg (by simp [hv])]
    rfl
  · intro st h
    subst h
    unfold fetchAndProcess
    rw [if_neg (by simp [hv])]
    rfl
  · intro h
    subst h
    unfold fetchAndProcess
    rw [if_neg (by simp [hv])]
    rfl
  · intro values h hlen
    subst h
    unfold fetchAndProcess
    rw [if_neg (by simp [hv])]
    simp [hlen]

/-- Witness for C5: a cold cache plus a transport error yields
`SourceUnavailable` with the cache untouched. -/
theorem fetchAndProcess_failure_preserves_cache_witness :
    fetchAndProcess initialCache 0 true NetResponse.transportError =
      (Except.error FetchErr.sourceUnavailable, initialCache, true) :=
  (fetchAndProcess_failure_preserves_cache initialCache 0
    NetResponse.transportError (by decide)).1 rfl

/-- Claim C9: when the access key is absent (or empty, which
`EnvLoader.get` also turns into `null`) or still the placeholder,
`buildSheetsUrl` yields no URL, `addGoogleSheets` leaves
`dataSources.districtStats` unset, and the statistics step of
`initializeWithData` succeeds without ever invoking the fetch — the result
is `Except.ok none` (no statistics) for every possible fetch behaviour, so
no request is issued and no error propagates. -/
theorem missing_key_skips_stats_fetch (apiKey : Option String)
    (sheetId range : String) (cfg : StatsConfig)
    (hk : envGet apiKey = none ∨
      envGet apiKey = some ("your_google_sheets_api_key_here"))
    (hcfg : cfg.districtStats = none) :
    ∀ f : String → Except FetchErr StatsIndex,
      runStatsStep (addGoogleSheets cfg apiKey sheetId range) f =
        Except.ok none := by
  intro f
  have hurl : buildSheetsUrl apiKey sheetId range = none := by
    rcases hk with h | h <;> simp [buildSheetsUrl, h]
  simp [addGoogleSheets, hurl, runStatsStep, hcfg]

/-- Witness for C9: no key present, statistics feature enabled, an
always-failing fetch — the pipeline still succeeds with no statistics. -/
theorem missing_key_skips_stats_fetch_witness :
    runStatsStep
      (addGoogleSheets { showDistrictStats := true, districtStats := none }
        none ("sheet1") ("A:K"))
      (fun _ => Except.error FetchErr.sourceUnavailable) = Except.ok none :=
  missing_key_skips_stats_fetch none ("sheet1") ("A:K")
    { showDistrictStats := true, districtStats := none } (Or.inl rfl) rfl _

/-- The key list of a cons. -/
theorem statKeys_cons (e : String × StatEntry) (l : StatsIndex) :
    statKeys (e :: l) = e.1 :: statKeys l := rfl

/-- Assigning key `k` makes it readable. -/
theorem statLookup_setStat_self (l : StatsIndex) (k : String) (v : StatEntry) :
    statLookup (setStat l k v) k = some v := by
  induction l with
  | nil => simp [setStat, statLookup]
  | cons e rest ih =>
    by_cases h : e.1 = k
    · simp [setStat, statLookup, h]
    · simp [setStat, statLookup, h, ih]

/-- Assigning key `k` leaves other keys unchanged. -/
theorem statLookup_setStat_ne (l : StatsIndex) (k : String) (v : StatEntry)
    (k' : String) (h : k' ≠ k) :
    statLookup (setStat l k v) k' = statLookup l k' := by
  induction l with
  | nil => simp [setStat, statLookup, Ne.symm h]
  | cons e rest ih =>
    by_cases he : e.1 = k
    · simp [setStat, statLookup, he, Ne.symm h]
    · simp only [setStat, if_neg he, statLookup]
      split <;> simp [ih]

/-- The key list after an assignment: unchanged for an existing key, the new
key appended otherwise. -/
theorem statKeys_setStat (l : StatsIndex) (k : String) (v : StatEntry) :
    statKeys (setStat l k v) =
      if k ∈ statKeys l then statKeys l else statKeys l ++ [k] := by
  induction l with
  | nil => simp [setStat, statKeys]
  | cons e rest ih =>
    by_cases h : e.1 = k
    · simp only [setStat, if_pos h, statKeys_cons]
      rw [if_pos (h ▸ List.mem_cons_self e.1 (statKeys rest))]
    · have hne : k ≠ e.1 := fun hh => h hh.symm
      simp only [setStat, if_neg h, statKeys_cons, ih]
      by_cases hk : k ∈ statKeys rest
      · rw [if_pos hk, if_pos (List.mem_cons_of_mem _ hk)]
      · rw [if_neg hk, if_neg (by simp [List.mem_cons, hne, hk]),
          List.cons_append]

/-- Object assignment preserves key uniqueness. -/
theorem nodup_statKeys_setStat (l : StatsIndex) (k : String) (v : StatEntry)
    (h : (statKeys l).Nodup) : (statKeys (setStat l k v)).Nodup := by
  rw [statKeys_setStat]
  split
  · exact h
  · rename_i hk
    simp [List.nodup_append, h, hk]

/-- Every step of the `loadDistrictStats` loop preserves key uniqueness. -/
theorem nodup_statKeys_statStep (headers : SheetRow) (acc : StatsIndex)
    (row : SheetRow) (h : (statKeys acc).Nodup) :
    (statKeys (statStep headers acc row)).Nodup := by
  unfold statStep
  cases rowId headers row with
  | none => exact h
  | some id => exact nodup_statKeys_setStat acc id _ h

/-- The `loadDistrictStats` loop resolves a lookup to the last matching row:
folding the rows over any accumulator, a key reads as the entry of the last
row carrying it, else as in the accumulator. -/
theorem statLookup_foldl (headers : SheetRow) (rows : List SheetRow)
    (acc : StatsIndex) (id : String) :
    statLookup (rows.foldl (statStep headers) acc) id =
      match rows.reverse.find? (fun r => rowId headers r == some id) with
      | some r => some (mkStatEntry headers r)
      | none => statLookup acc id := by
  induction rows generalizing acc with
  | nil => simp
  | cons r rs ih =>
    rw [List.foldl_cons, ih]
    rw [List.reverse_cons, List.find?_append]
    cases hfind : rs.reverse.find? (fun r => rowId headers r == some id) with
    | some r' => rfl
    | none =>
      show statLookup (statStep headers acc r) id =
        match Option.or none (List.find? (fun r => rowId headers r == some id) [r]) with
        | some r => some (mkStatEntry headers r)
        | none => statLookup acc id
      cases hid : rowId headers r with
      | none =>
        have hb : ((none : Option String) == some id) = false := rfl
        simp [statStep, hid, List.find?, hb]
      | some j =>
        by_cases hj : j = id
        · subst hj
          have hb : ((some j : Option String) == some j) = true := by simp
          simp [statStep, hid, List.find?, hb, statLookup_setStat_self]
        · have hb : ((some j : Option String) == some id) = false := by
            simp [hj]
          simp [statStep, hid, List.find?, hb,
            statLookup_setStat_ne acc j _ id (fun hh => hj hh.symm)]

/-- A blank (`""`) or absent cell coerces to the number `0` through the
`|| 0` fallback. -/
theorem numCell_blank (c : Option String) (h : c = none ∨ c = some ("")) :
    numCell c = JSNum.fin 0 := by
  rcases h with h | h <;> simp [numCell, h]

/-- Every entry readable from the join index was built by `mkStatEntry` from
one of the input rows. -/
theorem statLookup_mem (headers : SheetRow) (rows : List SheetRow)
    (id : String) (e : StatEntry)
    (h : statLookup (buildStats headers rows) id = some e) :
    ∃ r ∈ rows, e = mkStatEntry headers r := by
  have hfold := statLookup_foldl headers rows [] id
  rw [show rows.foldl (statStep headers) [] = buildStats headers rows from rfl,
    h] at hfold
  cases hf : rows.reverse.find? (fun r => rowId headers r == some id) with
  | none =>
    rw [hf] at hfold
    simp [statLookup] at hfold
  | some r =>
    rw [hf] at hfold
    refine ⟨r, List.mem_reverse.mp (List.mem_of_find?_eq_some hf), ?_⟩
    exact Option.some_injective _ hfold

/-- Claim C8: for every header row and data-row list, the join index built
by `loadDistrictStats` has pairwise-distinct identifiers (at most one entry
per identifier), a lookup returns the entry built from the last data row
carrying that identifier, and a row whose identifier cell is absent or blank
contributes no entry (dropping it leaves the index unchanged). -/
theorem stats_index_invariants (headers : SheetRow) (rows : List SheetRow) :
    (statKeys (buildStats headers rows)).Nodup ∧
    (∀ id, statLookup (buildStats headers rows) id =
      (rows.reverse.find? (fun r => rowId headers r == some id)).map
        (mkStatEntry headers)) ∧
    (∀ pre r post, rowId headers r = none →
      buildStats headers (pre ++ r :: post) =
        buildStats headers (pre ++ post)) := by
  refine ⟨?_, ?_, ?_⟩
  · have hstep : ∀ (rs : List SheetRow) (acc : StatsIndex),
        (statKeys acc).Nodup →
        (statKeys (rs.foldl (statStep headers) acc)).Nodup := by
      intro rs
      induction rs with
      | nil => exact fun acc h => h
      | cons r rs ih =>
        exact fun acc h => ih _ (nodup_statKeys_statStep headers acc r h)
    exact hstep rows [] (by simp [statKeys])
  · intro id
    rw [show buildStats headers rows = rows.foldl (statStep headers) [] from rfl,
      statLookup_foldl]
    cases hf : rows.reverse.find? (fun r => rowId headers r == some id) with
    | none => simp [statLookup]
    | some r => rfl
  · intro pre r post h
    unfold buildStats
    rw [List.foldl_append, List.foldl_append, List.foldl_cons]
    have : statStep headers (pre.foldl (statStep headers) []) r =
        pre.foldl (statStep headers) [] := by
      simp [statStep, h]
    rw [this]

/-- Witness for C8, instantiated at a concrete index with a duplicated
identifier, a concrete lookup, and a concrete identifier-less row. -/
theorem stats_index_invariants_witness :
    (statKeys (buildStats [("cartodb_id")] [[("1")], [("2")], [("1")]])).Nodup ∧
    statLookup (buildStats [("cartodb_id")] [[("1")], [("2")], [("1")]]) ("1") =
      (([[("1")], [("2")], [("1")]] : List SheetRow).reverse.find?
        (fun r => rowId [("cartodb_id")] r == some ("1"))).map
        (mkStatEntry [("cartodb_id")]) ∧
    buildStats [("cartodb_id")] ([[("1")]] ++ [] :: [[("2")]]) =
      buildStats [("cartodb_id")] ([[("1")]] ++ [[("2")]]) :=
  ⟨(stats_index_invariants [("cartodb_id")] [[("1")], [("2")], [("1")]]).1,
   (stats_index_invariants [("cartodb_id")] [[("1")], [("2")], [("1")]]).2.1 ("1"),
   (stats_index_invariants [("cartodb_id")] [[("1")], [("2")]]).2.2
     [[("1")]] [] [[("2")]] rfl⟩

/-- Counterexample to claim C4: with a non-blank, non-numeric `population`
cell (`"abc"`), the stored numeric field is `NaN` — `Number("abc")` — and
not `0`, contradicting the claimed coercion to 0 for blank-or-non-numeric
cells and the claimed absence of NaN. -/
theorem stats_nonnumeric_cell_is_nan :
    (statLookup
        (buildStats [("cartodb_id"), ("population"), ("area"), ("adcount")]
          [[("1"), ("abc"), (""), ("")]]) ("1")).map StatEntry.population =
      some JSNum.nan ∧ JSNum.nan ≠ JSNum.fin 0 := by
  with_unfolding_all decide

/-- Claim C4 as amended: every entry readable from the join index comes from
an input row, all its fields are present, and each numeric field equals `0`
whenever the corresponding source cell is blank or absent; a non-blank,
non-numeric cell instead stores `NaN` (see the counterexample), the row
still never failing. -/
theorem stats_blank_cells_default_zero (headers : SheetRow)
    (rows : List SheetRow) (id : String) (e : StatEntry)
    (h : statLookup (buildStats headers rows) id = some e) :
    ∃ r ∈ rows, e = mkStatEntry headers r ∧
      ((cellAt r (colIndexOf headers ("population")) = none ∨
        cellAt r (colIndexOf headers ("population")) = some ("")) →
        e.population = JSNum.fin 0) ∧
      ((cellAt r (colIndexOf headers ("area")) = none ∨
        cellAt r (colIndexOf headers ("area")) = some ("")) →
        e.area = JSNum.fin 0) ∧
      ((cellAt r (colIndexOf headers ("adcount")) = none ∨
        cellAt r (colIndexOf headers ("adcount")) = some ("")) →
        e.adCount = JSNum.fin 0) := by
  obtain ⟨r, hr, he⟩ := statLookup_mem headers rows id e h
  refine ⟨r, hr, he, ?_, ?_, ?_⟩ <;> intro hc
  · rw [he]
    simp [mkStatEntry, numCell_blank _ hc]
  · rw [he]
    simp [mkStatEntry, numCell_blank _ hc]
  · rw [he]
    simp [mkStatEntry, numCell_blank _ hc]

/-- Witness for C4's amended theorem at a concrete index whose population
cell is blank. -/
theorem stats_blank_cells_default_zero_witness :
    ∃ r ∈ ([[("7"), ("")]] : List SheetRow),
      ({ name := none, population := JSNum.fin 0, area := JSNum.fin 0,
         adCount := JSNum.fin 0, notes := "" } : StatEntry) =
        mkStatEntry [("cartodb_id"), ("population")] r ∧
      ((cellAt r (colIndexOf [("cartodb_id"), ("population")] ("population")) = none ∨
        cellAt r (colIndexOf [("cartodb_id"), ("population")] ("population")) = some ("")) →
        ({ name := none, population := JSNum.fin 0, area := JSNum.fin 0,
           adCount := JSNum.fin 0, notes := "" } : StatEntry).population = JSNum.fin 0) ∧
      ((cellAt r (colIndexOf [("cartodb_id"), ("population")] ("area")) = none ∨
        cellAt r (colIndexOf [("cartodb_id"), ("population")] ("area")) = some ("")) →
        ({ name := none, population := JSNum.fin 0, area := JSNum.fin 0,
           adCount := JSNum.fin 0, notes := "" } : StatEntry).area = JSNum.fin 0) ∧
      ((cellAt r (colIndexOf [("cartodb_id"), ("population")] ("adcount")) = none ∨
        cellAt r (colIndexOf [("cartodb_id"), ("population")] ("adcount")) = some ("")) →
        ({ name := none, population := JSNum.fin 0, area := JSNum.fin 0,
           adCount := JSNum.fin 0, notes := "" } : StatEntry).adCount = JSNum.fin 0) :=
  stats_blank_cells_default_zero [("cartodb_id"), ("population")]
    [[("7"), ("")]] ("7") _ (by with_unfolding_all decide)

/-- Pushing a feature under `cat` appends it to `cat`'s list and leaves
every other category's list unchanged. -/
theorem featuresOf_addFeature (coll : CategoryColl) (cat : String)
    (f : MapFeature) (c : String) :
    featuresOf (addFeature coll cat f) c =
      if c = cat then featuresOf coll c ++ [f] else featuresOf coll c := by
  induction coll with
  | nil =>
    by_cases h : c = cat
    · simp [addFeature, featuresOf, h]
    · have h' : ¬cat = c := fun hh => h (Eq.symm hh)
      simp [addFeature, featuresOf, h, h']
  | cons e rest ih =>
    by_cases he : e.1 = cat
    · by_cases hc : c = cat
      · simp [addFeature, featuresOf, he, hc]
      · have h1 : ¬e.1 = c := fun hh => hc (hh.symm.trans he)
        have h2 : ¬cat = c := fun hh => hc (Eq.symm hh)
        simp [addFeature, featuresOf, he, hc, h1, h2]
    · by_cases hec : e.1 = c
      · have h1 : ¬c = cat := fun hh => he (hec.trans hh)
        simp [addFeature, featuresOf, he, hec, h1]
      · simp [addFeature, featuresOf, he, hec, ih]

/-- Characterisation of the row loop: after folding the rows over any
collection, a category's feature list is what it was in the accumulator
followed by the features of the successfully parsed rows of that category,
in row order. -/
theorem featuresOf_foldl (headers : SheetRow) (rows : List SheetRow)
    (acc : CategoryColl) (c : String) :
    featuresOf (rows.foldl (procStep headers) acc) c =
      featuresOf acc c ++
        (((rows.filterMap (parseRow headers)).filter
          (fun p => p.1 == c)).map (fun p => p.2)) := by
  induction rows generalizing acc with
  | nil => simp
  | cons r rs ih =>
    rw [List.foldl_cons, ih]
    cases hpr : parseRow headers r with
    | none => simp [procStep, hpr]
    | some cf =>
      obtain ⟨cat, f⟩ := cf
      by_cases hc : cat = c
      · subst hc
        simp [procStep, hpr, featuresOf_addFeature, List.filter_cons]
      · have hb : (cat == c) = false := by simp [hc]
        have hcc : ¬c = cat := fun hh => hc (Eq.symm hh)
        simp [procStep, hpr, featuresOf_addFeature, List.filter_cons, hb, hcc]

/-- A row parsed to a feature of category `cat` appears in that category's
list of the final collection. -/
theorem mem_featuresOf_processSheetData (values : List SheetRow)
    (row : SheetRow) (cat : String) (f : MapFeature)
    (hrow : row ∈ values.tail)
    (hpr : parseRow (values.headD []) row = some (cat, f)) :
    f ∈ featuresOf (processSheetData values) cat := by
  unfold processSheetData
  rw [featuresOf_foldl]
  have hmem : (cat, f) ∈ (values.tail.filterMap (parseRow (values.headD []))) :=
    List.mem_filterMap.mpr ⟨row, hrow, hpr⟩
  have hfil : (cat, f) ∈ ((values.tail.filterMap (parseRow (values.headD []))).filter
      (fun p => p.1 == cat)) :=
    List.mem_filter.mpr ⟨hmem, by simp⟩
  simpa [featuresOf] using List.mem_map_of_mem (fun p => p.2) hfil

/-- Counterexample to claim C2: on the Scenario A input — header
`[Name, Koordinaten, Werbeträger]`, one row
`["Spot1","52.5,13.4","Billboard"]` — `processSheetData` returns the empty
collection, not a collection with key `"Billboard"`: the three-cell row is
skipped by the positional pre-check `row.length < 9 || !row[0] ||
!row[9]`. -/
theorem scenarioA_three_cell_row_yields_empty :
    processSheetData [[("Name"), ("Koordinaten"), ("Werbeträger")],
      [("Spot1"), ("52.5,13.4"), ("Billboard")]] = [] := by
  decide

/-- Claim C2 as amended: for a ten-column layout that places `Name` at index
0 and `Koordinaten` at index 9 — header
`[Name, Werbeträger, H2..H8, Koordinaten]`, data row
`["Spot1","Billboard","","","","","","","","52.5,13.4"]` — the transformer
returns a collection whose key set is exactly `{"Billboard"}`, holding one
parsed location named `"Spot1"` with coordinates `(52.5, 13.4)`; the
original three-cell Scenario A row is instead skipped by the positional
pre-check and yields the empty collection. -/
theorem processSheetData_padded_scenarioA :
    processSheetData
      [[("Name"), ("Werbeträger"), ("H2"), ("H3"), ("H4"), ("H5"), ("H6"),
        ("H7"), ("H8"), ("Koordinaten")],
       [("Spot1"), ("Billboard"), (""), (""), (""), (""), (""), (""), (""),
        ("52.5,13.4")]] =
      [(("Billboard"),
        [{ name := some ("Spot1"), category := ("Billboard"),
           coordinates := [JSNum.fin (105 / 2), JSNum.fin (67 / 5)] }])] := by
  with_unfolding_all decide

/-- Counterexample to claim C3: a row whose name, coordinate and category
cells are all non-blank and whose coordinate cell parses to exactly two
finite numbers (`1.5` and `2.5`) is nevertheless absent from the output —
the positional pre-check (10 cells, non-blank cells at indices 0 and 9) is a
further validation step the claim's list omits. -/
theorem enumerated_valid_row_absent :
    cellTruthy (rowVal [("Name"), ("Koordinaten"), ("Werbeträger")]
      [("SpotX"), ("1.5,2.5"), ("CityLight")] ("Name")) = true ∧
    cellTruthy (rowVal [("Name"), ("Koordinaten"), ("Werbeträger")]
      [("SpotX"), ("1.5,2.5"), ("CityLight")] ("Koordinaten")) = true ∧
    cellTruthy (rowVal [("Name"), ("Koordinaten"), ("Werbeträger")]
      [("SpotX"), ("1.5,2.5"), ("CityLight")] ("Werbeträger")) = true ∧
    coordOk (coordParts ("1.5,2.5")) = true ∧
    processSheetData [[("Name"), ("Koordinaten"), ("Werbeträger")],
      [("SpotX"), ("1.5,2.5"), ("CityLight")]] = [] := by
  with_unfolding_all decide

/-- Claim C3 as amended: (1) every data row whose coordinate cell does not
split on a comma into exactly two tokens each accepted by `parseFloat`
(non-`NaN`; prefix parsing, so trailing garbage and `Infinity` are accepted)
contributes nothing to the output collection; (2) every data row that also
passes the positional pre-check (non-blank cells at indices 0 and 9, which
forces at least 10 cells) and has a non-blank coordinate cell and a
non-blank category cell is present in the output: it parses to a feature
that appears under its category. -/
theorem row_validation_characterizes_output (values : List SheetRow) :
    (∀ row ∈ values.tail,
      (∀ k, rowVal (values.headD []) row ("Koordinaten") = some k →
        coordOk (coordParts k) = false) →
      parseRow (values.headD []) row = none) ∧
    (∀ row ∈ values.tail, ∀ k cat,
      cellTruthy (row.get? 0) = true → cellTruthy (row.get? 9) = true →
      rowVal (values.headD []) row ("Koordinaten") = some k →
      coordOk (coordParts k) = true →
      rowVal (values.headD []) row ("Werbeträger") = some cat → cat ≠ "" →
      ∃ f, parseRow (values.headD []) row = some (cat, f) ∧
        f ∈ featuresOf (processSheetData values) cat) := by
  constructor
  · intro row _ hbad
    unfold parseRow
    by_cases hpre : (row.length < 9 ∨ cellTruthy (row.get? 0) = false ∨
        cellTruthy (row.get? 9) = false)
    · rw [if_pos hpre]
    · rw [if_neg hpre]
      cases hk : rowVal (values.headD []) row ("Koordinaten") with
      | none => rfl
      | some k =>
        by_cases hke : k = ""
        · simp [hke]
        · simp [hke, hbad k hk]
  · intro row hrow k cat h0 h9 hk hok hcat hcate
    have h9none : row.get? 9 ≠ none := by
      intro hnone
      rw [hnone] at h9
      simp [cellTruthy] at h9
    have hlen : ¬(row.length < 9) := by
      intro hlt
      exact h9none (List.get?_eq_none.mpr (by omega))
    have hpre : ¬(row.length < 9 ∨ cellTruthy (row.get? 0) = false ∨
        cellTruthy (row.get? 9) = false) := by
      rintro (h | h | h)
      · exact hlen h
      · rw [h0] at h
        exact Bool.noConfusion h
      · rw [h9] at h
        exact Bool.noConfusion h
    have hke : k ≠ "" := by
      intro hk0
      rw [hk0] at hok
      exact absurd hok (by decide)
    have hokf : ¬(coordOk (coordParts k) = false) := by simp [hok]
    have hpr : parseRow (values.headD []) row =
        some (cat, { name := rowVal (values.headD []) row ("Name")
                     category := cat
                     coordinates := coordParts k }) := by
      generalize hH : values.headD [] = H at hk hcat ⊢
      unfold parseRow
      rw [if_neg hpre, hk]
      simp [hke, hokf, hcat, hcate]
    exact ⟨_, hpr, mem_featuresOf_processSheetData values row cat _ hrow hpr⟩

/-- Witness for C3's amended theorem: a concrete padded row parses and its
feature is present under its category. -/
theorem row_validation_characterizes_output_witness :
    ∃ f, parseRow
        [("Name"), ("Werbeträger"), ("H2"), ("H3"), ("H4"), ("H5"), ("H6"),
         ("H7"), ("H8"), ("Koordinaten")]
        [("SpotY"), ("Mall"), (""), (""), (""), (""), (""), (""), (""),
         ("7.5,8.25")] = some (("Mall"), f) ∧
      f ∈ featuresOf (processSheetData
        [[("Name"), ("Werbeträger"), ("H2"), ("H3"), ("H4"), ("H5"), ("H6"),
          ("H7"), ("H8"), ("Koordinaten")],
         [("SpotY"), ("Mall"), (""), (""), (""), (""), (""), (""), (""),
          ("7.5,8.25")]]) ("Mall") :=
  (row_validation_characterizes_output
      [[("Name"), ("Werbeträger"), ("H2"), ("H3"), ("H4"), ("H5"), ("H6"),
        ("H7"), ("H8"), ("Koordinaten")],
       [("SpotY"), ("Mall"), (""), (""), (""), (""), (""), (""), (""),
        ("7.5,8.25")]]).2
    [("SpotY"), ("Mall"), (""), (""), (""), (""), (""), (""), (""),
     ("7.5,8.25")]
    (by decide) ("7.5,8.25") ("Mall") (by decide) (by decide) (by decide)
    (by with_unfolding_all decide) (by decide) (by decide)
